import Mathlib

/-!
Verification of the slack-emoji tool (src/main.rs) against its specification.

The Rust program is shallowly embedded: pure computations become Lean
functions; the network, the clock and the filesystem are passed in as
explicit oracles/environments; the stateful download loop becomes a pure
function producing an event trace together with its final rate-limit
deadline.  Machine integers (`u8`, `u32`, `u128`) are `Nat` — none of the
embedded code performs arithmetic that can overflow, so only the range
checks that serde performs during deserialization are modelled explicitly.
-/

namespace SlackEmoji

/-- `serde_json::Value`: the JSON tree stored in the `#[serde(flatten)]`
`unknown_fields` maps.  Numbers are modelled as `Nat` (the embedded code
only ever constructs and transports integral values; it never computes
with them, and floating point is out of scope). -/
inductive Json where
  | null : Json
  | boolean (b : Bool) : Json
  | num (n : Nat) : Json
  | str (s : String) : Json
  | arr (elems : List Json) : Json
  | obj (fields : List (String × Json)) : Json

/-- `type UnknownJSONFields = std::collections::BTreeMap<String, serde_json::Value>`,
modelled as an association list; the `BTreeMap` invariant (strictly
ascending keys) is stated separately where a proof needs it. -/
abbrev UnknownJSONFields : Type := List (String × Json)

/-- `struct Emoji` (main.rs lines 21-33). -/
structure Emoji where
  name : String
  is_alias : Nat
  alias_for : String
  url : String
  created : Nat
  user_display_name : String
  avatar_hash : String
  unknown_fields : UnknownJSONFields

/-- `Emoji::new` (main.rs lines 35-49). -/
def Emoji.new (name : String) : Emoji :=
  { name := name
    is_alias := 0
    alias_for := ""
    url := "https://cdn.example.com/emoji.png"
    created := 133742069
    user_display_name := "M3t0r"
    avatar_hash := "0xdeadbeef"
    unknown_fields := [] }

/-- `struct Paging` (main.rs lines 51-57). -/
structure Paging where
  count : Nat
  unknown_fields : UnknownJSONFields

/-- `struct EmojiAdminList` (main.rs lines 9-19). -/
structure EmojiAdminList where
  custom_emoji_total_count : Nat
  paging : Paging
  ok : Bool
  emoji : List Emoji
  unknown_fields : UnknownJSONFields

/-- `enum GetEmojiError` (main.rs lines 61-65); the `reqwest::Error`
payload is opaque and carried as a string. -/
inductive GetEmojiError where
  | ApiResponse (fields : UnknownJSONFields)
  | Reqwest (e : String)

/-- Stable insertion step for `Vec::sort_by_key(|e| e.created)`: walk past
strictly smaller keys and insert before the first element whose key is
`≥`, so that earlier elements keep their position among equals. -/
def insertByCreated (e : Emoji) : List Emoji → List Emoji
  | [] => [e]
  | x :: xs => if x.created < e.created then x :: insertByCreated e xs else e :: x :: xs

/-- `admin_list.emoji.sort_by_key(|e| e.created)` (main.rs line 131): a
stable sort ascending by `created`. -/
def sortByCreated (l : List Emoji) : List Emoji :=
  l.foldr insertByCreated []

/-- `get_emoji` (main.rs lines 86-134).  The two network round-trips are
oracles: `resp1` is the outcome of the first `POST` (page 1, count 1);
`resp2` maps the `count` form field sent in the second `POST` to that
round-trip's outcome.  A `.error` oracle outcome covers every
`reqwest::Error` path (`build()?`, `execute()?`, `error_for_status()?`,
`json()?`).  Note the source checks `ok` only on the FIRST response: the
second response's record list is sorted and returned unconditionally. -/
def get_emoji (resp1 : Except String EmojiAdminList)
    (resp2 : Nat → Except String EmojiAdminList) :
    Except GetEmojiError (List Emoji) :=
  match resp1 with
  | .error e => .error (.Reqwest e)
  | .ok admin_list =>
    if admin_list.ok = false then
      .error (.ApiResponse admin_list.unknown_fields)
    else
      match resp2 admin_list.custom_emoji_total_count with
      | .error e => .error (.Reqwest e)
      | .ok admin_list2 => .ok (sortByCreated admin_list2.emoji)

/-- `enum FileOrDirectoryWriter` (main.rs lines 210-214); the open `File`
handle is represented by its path. -/
inductive FileOrDirectoryWriter where
  | StdOut : FileOrDirectoryWriter
  | File (path : String) : FileOrDirectoryWriter
  | Directory (path : String) : FileOrDirectoryWriter
deriving DecidableEq, Repr

/-- Outcomes of the underlying I/O operations a single
`FileOrDirectoryWriter::write` call can perform.  Each operation is
modelled all-or-nothing: a successful `io::Write::write` writes the whole
buffer and reports its full length (the behaviour the repository's own
`ford_tests` assert). -/
structure IoEnv where
  stdout_write_ok : Bool
  file_write_ok : Bool
  dir_exists : Bool
  create_dir_ok : Bool
  fs_write_ok : Bool

/-- `FileOrDirectoryWriter::write` (main.rs lines 217-237).  Returns the
byte count `Ok` result or an opaque I/O error. -/
def FileOrDirectoryWriter.write (w : FileOrDirectoryWriter) (env : IoEnv)
    (name serialized : String) : Except String Nat :=
  match w with
  | .StdOut =>
      if env.stdout_write_ok then .ok (serialized ++ "\n").length
      else .error "stdout write failed"
  | .File _ =>
      if env.file_write_ok then .ok (serialized ++ "\n").length
      else .error "file write failed"
  | .Directory _ =>
      if !env.dir_exists && !env.create_dir_ok then .error "create_dir_all failed"
      else
        let content_size := serialized.length
        if env.fs_write_ok then .ok (content_size + 1)
        else .error (name ++ ": fs write failed")

/-- `std::path::MAIN_SEPARATOR` on the target platform (Unix). -/
def MAIN_SEPARATOR : Char := '/'

/-- `str::ends_with(char)`: the last character of the string equals `c`. -/
def endsWithChar (s : String) (c : Char) : Bool :=
  s.data.getLast? == some c

/-- A component of a normalized path: `std::path::Component` on Unix
(no prefix components exist there). -/
inductive PathComponent where
  | RootDir : PathComponent
  | CurDir : PathComponent
  | ParentDir : PathComponent
  | Normal (s : String) : PathComponent
deriving DecidableEq, Repr

/-- Split a character list at every `MAIN_SEPARATOR`, keeping empty
pieces (they arise from leading, trailing and repeated separators). -/
def splitOnSep : List Char → List (List Char)
  | [] => [[]]
  | c :: rest =>
      let r := splitOnSep rest
      if c = MAIN_SEPARATOR then [] :: r
      else
        match r with
        | [] => [[c]]
        | piece :: more => (c :: piece) :: more

/-- A non-leading path piece as a component: `.` is normalized away,
`..` is `ParentDir`, anything else is a `Normal` component. -/
def bodyComponent (s : List Char) : Option PathComponent :=
  if s = ['.'] then none
  else if s = ['.', '.'] then some .ParentDir
  else some (.Normal ⟨s⟩)

/-- `Path::components` on Unix: a leading separator is the root; empty
pieces are dropped; a leading `.` piece is kept as `CurDir` only when
there is no root; every other `.` piece is normalized away; `..` pieces
are kept. -/
def pathComponents (p : String) : List PathComponent :=
  let pieces := (splitOnSep p.data).filter (fun s => !s.isEmpty)
  if p.data.head? = some MAIN_SEPARATOR then
    PathComponent.RootDir :: pieces.filterMap bodyComponent
  else
    match pieces with
    | ['.'] :: rest => PathComponent.CurDir :: rest.filterMap bodyComponent
    | _ => pieces.filterMap bodyComponent

/-- `PathBuf: PartialEq` compares normalized components, not raw
strings: a dash followed by a trailing separator, by repeated
separators, or by a separator and a dot piece all compare equal to the
plain dash path. -/
def pathEq (a b : String) : Bool :=
  decide (pathComponents a = pathComponents b)

/-- The filesystem state consulted while selecting the output sink:
`Path::is_dir` and whether `OpenOptions::open` (create/truncate/write)
succeeds for a given path. -/
structure FsState where
  is_dir : String → Bool
  open_ok : String → Bool

/-- `impl TryFrom<PathBuf> for FileOrDirectoryWriter` (main.rs lines
240-257): a token equal to `-` AS A PATH (component-normalized
comparison, `pf == PathBuf::from("-")`) selects stdout; an existing
directory or a trailing `MAIN_SEPARATOR` in the raw string
(`to_string_lossy().ends_with(MAIN_SEPARATOR)`) selects the directory
variant; anything else opens a single file. -/
def tryFromPathBuf (fs : FsState) (pf : String) : Except String FileOrDirectoryWriter :=
  if pathEq pf "-" then .ok .StdOut
  else if fs.is_dir pf || endsWithChar pf MAIN_SEPARATOR then .ok (.Directory pf)
  else if fs.open_ok pf then .ok (.File pf)
  else .error "open failed"

/-- `list_opts.output.unwrap_or(PathBuf::from(list_opts.workspace.clone() + "/"))`
(main.rs lines 276-279): the destination token handed to `TryFrom`. -/
def list_output_token (workspace : String) (output : Option String) : String :=
  output.getD (workspace ++ "/")

/-- Output-sink selection as performed once at setup by the `List`
subcommand (main.rs lines 276-286). -/
def select_sink (fs : FsState) (workspace : String) (output : Option String) :
    Except String FileOrDirectoryWriter :=
  tryFromPathBuf fs (list_output_token workspace output)

/-- `str::rsplit_once(c)` on the underlying character list: split at the
LAST occurrence of `c`; `none` when `c` does not occur. -/
def rsplitOnceList (c : Char) : List Char → Option (List Char × List Char)
  | [] => none
  | x :: xs =>
      match rsplitOnceList c xs with
      | some (pre, suf) => some (x :: pre, suf)
      | none => if x = c then some ([], xs) else none

/-- `str::rsplit_once(c)`. -/
def rsplitOnce (s : String) (c : Char) : Option (String × String) :=
  match rsplitOnceList c s.data with
  | some (pre, suf) => some (⟨pre⟩, ⟨suf⟩)
  | none => none

/-- `let (_, suffix) = e.url.rsplit_once('.').unwrap_or(("", "png"));`
(main.rs line 350): everything after the LAST `.` of the whole URL
string, `"png"` only when the URL contains no `.` at all. -/
def urlSuffix (url : String) : String :=
  match rsplitOnce url '.' with
  | some (_, suffix) => suffix
  | none => "png"

/-- `PathBuf::with_extension` at the file-name level: replace everything
after the last `.` of the file name (a leading-dot-only name has no
extension and is kept whole), then append the new extension. -/
def withExtension (fileName ext : String) : String :=
  let stem :=
    match rsplitOnce fileName '.' with
    | some (pre, _) => if pre = "" then fileName else pre
    | none => fileName
  if ext = "" then stem else stem ++ "." ++ ext

/-- A destination path `base_path.join(name).with_extension(suffix)`,
kept as its base directory and final file name. -/
structure Dest where
  base : String
  file : String
deriving DecidableEq, Repr

/-- The `url_path_pairs` construction (main.rs lines 347-354): one
`(url, destination)` pair per record, for every record — the `is_alias`
flag is never consulted. -/
def url_path_pairs (base_path : String) (emoji : List Emoji) : List (String × Dest) :=
  emoji.map fun e =>
    (e.url, { base := base_path, file := withExtension e.name (urlSuffix e.url) })

/-- `let min_dif: Duration = Duration::from_secs(1) / 20;` (main.rs line
358), in nanoseconds: the fixed 1/20-second inter-request interval. -/
def min_dif : Nat := 50000000

/-- The environment one iteration of the download loop observes: whether
`path.is_file()` holds at the skip check, whether the GET
(`send`/`error_for_status`/`bytes`) succeeds and with which body, whether
`fs::write` succeeds, and whether `path.is_file()` holds inside the
write-error branch. -/
structure StepEnv where
  already_file : Bool
  fetch_ok : Bool
  body : List Nat
  write_ok : Bool
  still_file_after_write_error : Bool
deriving DecidableEq, Repr

/-- Observable actions of one download-loop run.  `Sleep d` records
`thread::sleep(next_dl.saturating_duration_since(now))` together with the
deadline `next_dl` it sleeps towards. -/
inductive DlEvent where
  | Skip (path : String)
  | Request (url : String)
  | ReportFetchFailure (path : String)
  | WriteFile (path : String) (body : List Nat)
  | ReportWriteFailure (path : String)
  | RemoveFile (path : String)
  | Sleep (deadline : Nat)
deriving DecidableEq, Repr

/-- Recognizes an HTTP request event. -/
def DlEvent.isRequest : DlEvent → Bool
  | .Request _ => true
  | _ => false

/-- Recognizes a rate-limit sleep event. -/
def DlEvent.isSleep : DlEvent → Bool
  | .Sleep _ => true
  | _ => false

/-- One iteration of the download loop (main.rs lines 361-399) for the
pair `(url, path)`, given the pre-iteration deadline `last_dl`: returns
the events of this iteration and the deadline passed to the next one.
Note: when the fetch fails the source `continue`s (line 382) and so skips
both the sleep and the `last_dl = next_dl` advance. -/
def downloadStep (force : Bool) (url path : String) (env : StepEnv) (last_dl : Nat) :
    List DlEvent × Nat :=
  if !force && env.already_file then
    ([.Skip path], last_dl)
  else if !env.fetch_ok then
    ([.Request url, .ReportFetchFailure path], last_dl)
  else
    let writeEvents :=
      if env.write_ok then [DlEvent.WriteFile path env.body]
      else
        [DlEvent.ReportWriteFailure path] ++
          (if env.still_file_after_write_error then [DlEvent.RemoveFile path] else [])
    let next_dl := last_dl + min_dif
    ([DlEvent.Request url] ++ writeEvents ++ [DlEvent.Sleep next_dl], next_dl)

/-- The whole download loop over `url_path_pairs` in list order; each
pair is processed exactly once (no retry is expressible).  `last_dl`
starts at the Instant taken just before the loop (line 359). -/
def download_all (force : Bool) :
    List ((String × String) × StepEnv) → Nat → List DlEvent × Nat
  | [], last_dl => ([], last_dl)
  | ((url, path), env) :: rest, last_dl =>
      let step := downloadStep force url path env last_dl
      let restRun := download_all force rest step.2
      (step.1 ++ restRun.1, restRun.2)

/-- The known (explicitly modelled) field names of `struct Emoji`, in
declaration order. -/
def knownEmojiFields : List String :=
  ["name", "is_alias", "alias_for", "url", "created", "user_display_name", "avatar_hash"]

/-- serde serialization of an `Emoji` to a JSON object: the seven named
fields in declaration order, followed by the `#[serde(flatten)]`ed
`unknown_fields` entries in map (key) order.  The textual layer
(`serde_json::to_string_pretty` and back) is modelled as the identity on
JSON trees. -/
def serializeEmoji (e : Emoji) : Json :=
  .obj
    ([("name", Json.str e.name),
      ("is_alias", Json.num e.is_alias),
      ("alias_for", Json.str e.alias_for),
      ("url", Json.str e.url),
      ("created", Json.num e.created),
      ("user_display_name", Json.str e.user_display_name),
      ("avatar_hash", Json.str e.avatar_hash)] ++ e.unknown_fields)

/-- Lexicographic strict order on character lists: the `Ord` a Rust
`BTreeMap<String, _>` sorts its keys by. -/
def keyLt : List Char → List Char → Bool
  | [], [] => false
  | [], _ :: _ => true
  | _ :: _, [] => false
  | a :: as, b :: bs => if a < b then true else if b < a then false else keyLt as bs

/-- Lexicographic strict order on strings (`String: Ord` in Rust). -/
def strLt (a b : String) : Bool := keyLt a.data b.data

/-- `BTreeMap::insert` on a key-sorted association list: replace an equal
key, otherwise keep the keys sorted. -/
def btreeInsert (k : String) (v : Json) : List (String × Json) → List (String × Json)
  | [] => [(k, v)]
  | (k', v') :: rest =>
      if strLt k k' then (k, v) :: (k', v') :: rest
      else if k = k' then (k, v) :: rest
      else (k', v') :: btreeInsert k v rest

/-- The partially filled fields while serde's derived visitor walks an
emoji object's entries. -/
structure EmojiFieldsAcc where
  name : Option String := none
  is_alias : Option Nat := none
  alias_for : Option String := none
  url : Option String := none
  created : Option Nat := none
  user_display_name : Option String := none
  avatar_hash : Option String := none
  rest : List (String × Json) := []

/-- One entry of the object as consumed by serde's derived
deserializer with `#[serde(flatten)]`: a known key fills its field
(duplicates and wrong types are errors, numeric fields are range-checked
against their Rust integer type), every other key is collected into the
`BTreeMap`. -/
def consumeEmojiField (acc : EmojiFieldsAcc) (k : String) (v : Json) :
    Except String EmojiFieldsAcc :=
  if k = "name" then
    match acc.name, v with
    | some _, _ => .error "duplicate field name"
    | none, .str s => .ok { acc with name := some s }
    | none, _ => .error "invalid type for name"
  else if k = "is_alias" then
    match acc.is_alias, v with
    | some _, _ => .error "duplicate field is_alias"
    | none, .num n =>
        if n < 256 then .ok { acc with is_alias := some n }
        else .error "out of range for u8"
    | none, _ => .error "invalid type for is_alias"
  else if k = "alias_for" then
    match acc.alias_for, v with
    | some _, _ => .error "duplicate field alias_for"
    | none, .str s => .ok { acc with alias_for := some s }
    | none, _ => .error "invalid type for alias_for"
  else if k = "url" then
    match acc.url, v with
    | some _, _ => .error "duplicate field url"
    | none, .str s => .ok { acc with url := some s }
    | none, _ => .error "invalid type for url"
  else if k = "created" then
    match acc.created, v with
    | some _, _ => .error "duplicate field created"
    | none, .num n =>
        if n < 2 ^ 128 then .ok { acc with created := some n }
        else .error "out of range for u128"
    | none, _ => .error "invalid type for created"
  else if k = "user_display_name" then
    match acc.user_display_name, v with
    | some _, _ => .error "duplicate field user_display_name"
    | none, .str s => .ok { acc with user_display_name := some s }
    | none, _ => .error "invalid type for user_display_name"
  else if k = "avatar_hash" then
    match acc.avatar_hash, v with
    | some _, _ => .error "duplicate field avatar_hash"
    | none, .str s => .ok { acc with avatar_hash := some s }
    | none, _ => .error "invalid type for avatar_hash"
  else
    .ok { acc with rest := btreeInsert k v acc.rest }

/-- Walk the object's entries in order, threading the accumulator. -/
def parseEmojiFields : EmojiFieldsAcc → List (String × Json) → Except String EmojiFieldsAcc
  | acc, [] => .ok acc
  | acc, (k, v) :: rest =>
      match consumeEmojiField acc k v with
      | .error msg => .error msg
      | .ok acc' => parseEmojiFields acc' rest

/-- Assemble the `Emoji` once all entries are consumed; any still-missing
named field is a serde `missing field` error. -/
def finishEmoji (acc : EmojiFieldsAcc) : Except String Emoji :=
  match acc.name, acc.is_alias, acc.alias_for, acc.url, acc.created,
      acc.user_display_name, acc.avatar_hash with
  | some n, some ia, some af, some u, some c, some udn, some ah =>
      .ok { name := n, is_alias := ia, alias_for := af, url := u, created := c,
            user_display_name := udn, avatar_hash := ah, unknown_fields := acc.rest }
  | _, _, _, _, _, _, _ => .error "missing field"

/-- serde deserialization of an `Emoji` from a JSON tree. -/
def parseEmoji (j : Json) : Except String Emoji :=
  match j with
  | .obj fields =>
      match parseEmojiFields {} fields with
      | .error msg => .error msg
      | .ok acc => finishEmoji acc
  | _ => .error "invalid type: expected a JSON object"

/-- The invariants every `Emoji` value of the Rust program satisfies:
`is_alias` fits `u8` and `created` fits `u128` (type invariants), and the
`BTreeMap` of unknown fields has strictly ascending keys none of which is
an explicitly modelled field name (serde's flatten collects exactly the
keys the named fields did not consume). -/
def wellFormedEmoji (e : Emoji) : Prop :=
  e.is_alias < 256 ∧ e.created < 2 ^ 128 ∧
    (∀ k ∈ e.unknown_fields.map Prod.fst, k ∉ knownEmojiFields) ∧
    List.Pairwise (fun a b => strLt a b = true) (e.unknown_fields.map Prod.fst)

instance (e : Emoji) : Decidable (wellFormedEmoji e) := by
  unfold wellFormedEmoji; infer_instance

/-- The characters of a path after its last `MAIN_SEPARATOR`:
`Path::file_name` for the paths at hand. -/
def pathFileName (p : String) : String :=
  ⟨p.data.foldl (fun acc c => if c = MAIN_SEPARATOR then [] else acc ++ [c]) []⟩

/-- `Path::extension`: the part of the file name after its last `.`;
`none` when there is no `.` or when the only `.` is the leading one of a
hidden file. -/
def pathExtension (p : String) : Option String :=
  match rsplitOnce (pathFileName p) '.' with
  | some (pre, suffix) => if pre = "" then none else some suffix
  | none => none

/-- One `read_dir` entry as the reload iterator observes it: the entry's
path, whether the `DirEntry` itself was `Ok`, whether the path is a
regular file, and the content oracle — `none` when `fs::read` fails,
`some none` when the bytes are not JSON text, `some (some j)` when they
parse to the JSON tree `j` (which `parseEmoji` may still reject). -/
structure DirEntry where
  path : String
  entry_ok : Bool
  is_file : Bool
  content : Option (Option Json)

/-- What one entry contributes to the reload: the stderr diagnostics it
prints and the records it yields, following the iterator chain of
main.rs lines 323-344 (`entry.ok()` / `is_file` / extension == "json" /
`read(..).ok()` / `serde_json::from_slice` with an `eprintln!` on parse
errors). -/
def reloadStep (ent : DirEntry) : List String × List Emoji :=
  if !ent.entry_ok then ([], [])
  else if !ent.is_file then ([], [])
  else if pathExtension ent.path ≠ some "json" then ([], [])
  else
    match ent.content with
    | none => ([], [])
    | some none => (["Could not parse JSON"], [])
    | some (some j) =>
        match parseEmoji j with
        | .error _ => (["Could not parse JSON"], [])
        | .ok e => ([], [e])

/-- The whole `emoji_iter` reload (main.rs lines 323-344), over the
directory's entries in order: all diagnostics and all yielded records.
The result is total — no entry's failure can fail the operation. -/
def emoji_iter : List DirEntry → List String × List Emoji
  | [] => ([], [])
  | ent :: rest =>
      let s := reloadStep ent
      let r := emoji_iter rest
      (s.1 ++ r.1, s.2 ++ r.2)

/-! Definitions that follow the SPEC's words, for comparison with the
embedded source (refinement-style claims). -/

/-- Modelled from the spec: "a file extension derived from the URL's
trailing path segment (default `png` if none present)" — the extension of
the segment after the URL's last `/`. -/
def specUrlExtension (url : String) : String :=
  match rsplitOnce (pathFileName url) '.' with
  | some (_, suffix) => suffix
  | none => "png"

/-- An entry eligible to contribute a record: an `Ok` dir entry that is a
regular file with extension `json`. -/
def eligibleEntry (ent : DirEntry) : Bool :=
  ent.entry_ok && ent.is_file && (pathExtension ent.path == some "json")

/-- Modelled from the spec: the record an entry should yield — exactly
the eligible, readable entries whose content parses to an `Emoji`. -/
def reloadSpecYield (ent : DirEntry) : Option Emoji :=
  if eligibleEntry ent then
    match ent.content with
    | some (some j) => (parseEmoji j).toOption
    | _ => none
  else none

/-- The diagnostic an entry actually produces: eligible entries whose
bytes are not JSON or whose JSON is not an `Emoji` object. -/
def reloadDiag (ent : DirEntry) : Option String :=
  if eligibleEntry ent then
    match ent.content with
    | none => none
    | some none => some "Could not parse JSON"
    | some (some j) =>
        match parseEmoji j with
        | .error _ => some "Could not parse JSON"
        | .ok _ => none
  else none

/-! Helper lemmas shared across claims. -/

/-- A string with a trailing slash ends with the path separator. -/
theorem endsWithChar_append_slash (s : String) :
    endsWithChar (s ++ "/") MAIN_SEPARATOR = true := by
  have hd : (s ++ "/").data = s.data ++ ['/'] := rfl
  simp [endsWithChar, hd, List.getLast?_concat, MAIN_SEPARATOR]

/-! ### C1 — validation of the second round-trip's success flag -/

/-- First-round-trip response used in the C1 scenario: `ok` true, one
emoji reported in total. -/
def c1resp1 : EmojiAdminList :=
  { custom_emoji_total_count := 1, paging := { count := 1, unknown_fields := [] },
    ok := true, emoji := [], unknown_fields := [] }

/-- Second-round-trip response used in the C1 scenario: `ok` FALSE, an
error payload in the extra fields, and a record list anyway. -/
def c1resp2 : EmojiAdminList :=
  { custom_emoji_total_count := 1, paging := { count := 1, unknown_fields := [] },
    ok := false, emoji := [Emoji.new "boom"],
    unknown_fields := [("error", Json.str "paging_error")] }

/-- C1 counterexample: in a run whose second response carries `ok = false`,
`get_emoji` does NOT return the `ApiResponse` error — it returns that very
response's record list.  The source validates `ok` only on the first
round-trip (main.rs line 108); lines 127-133 deserialize, sort and return
the second response without looking at its flag. -/
theorem get_emoji_second_flag_cex :
    c1resp2.ok = false ∧
    get_emoji (.ok c1resp1) (fun _ => .ok c1resp2) = .ok [Emoji.new "boom"] ∧
    get_emoji (.ok c1resp1) (fun _ => .ok c1resp2) ≠
      .error (.ApiResponse c1resp2.unknown_fields) := by
  refine ⟨rfl, rfl, ?_⟩
  intro h
  exact Except.noConfusion (h.symm.trans rfl)

/-- C1 (amended): once the first response arrives with `ok = true`, the
success flag of the second round-trip's response is never consulted:
whenever the second round-trip yields any response at all, `get_emoji`
returns its record list sorted by `created` — regardless of that
response's `ok` flag; only transport failures and a false flag on the
FIRST response produce errors. -/
theorem get_emoji_second_flag_ignored
    (resp1 : EmojiAdminList) (resp2 : Nat → Except String EmojiAdminList)
    (a2 : EmojiAdminList)
    (h1 : resp1.ok = true)
    (h2 : resp2 resp1.custom_emoji_total_count = .ok a2) :
    get_emoji (.ok resp1) resp2 = .ok (sortByCreated a2.emoji) := by
  simp [get_emoji, h1, h2]

/-- Witness for C1's amended theorem at a concrete input (the second
response has `ok = false` and its records are returned regardless). -/
theorem get_emoji_second_flag_ignored_witness :
    get_emoji (.ok c1resp1) (fun _ => .ok c1resp2) = .ok (sortByCreated c1resp2.emoji) :=
  get_emoji_second_flag_ignored c1resp1 (fun _ => .ok c1resp2) c1resp2 rfl rfl

/-! ### C2 — output-sink selection rule -/

/-- A filesystem in which no path is an existing directory and every
file-open succeeds. -/
def c2fs : FsState := { is_dir := fun _ => false, open_ok := fun _ => true }

/-- C2 counterexample: with NO explicit destination the `List` subcommand
does not select the stream variant — it defaults the token to
`<workspace>/`, whose trailing separator selects the Directory variant
(main.rs lines 276-279 and the `--output` doc comment: "Defaults to a
directory with the same name as the workspace"). -/
theorem default_output_not_stream_cex :
    select_sink c2fs "testws" none = .ok (.Directory "testws/") ∧
    select_sink c2fs "testws" none ≠ .ok .StdOut := by
  refine ⟨rfl, ?_⟩
  intro h
  have h2 := (Except.ok.injEq _ _).mp (Eq.symm (Eq.trans (Eq.symm h) rfl))
  exact FileOrDirectoryWriter.noConfusion h2

/-- C2 (amended): sink selection, evaluated once at setup, is a pure
function of the destination token and filesystem state.  A token equal
to `-` as a normalized path selects Stream — the comparison is
`PathBuf` equality over components, so a dash with a trailing separator
("-" ++ "/") also streams; an ABSENT explicit destination defaults the
token to `<workspace>/`, which streams when the workspace is itself `-`
and otherwise (whenever the defaulted token does not normalize to `-`)
selects the Directory variant through its trailing separator, not
Stream; a token not normalizing to `-` that names an existing directory
or ends in the separator selects Directory; any other token selects
Single-file. -/
theorem sink_selection_rule (fs : FsState) (workspace : String) :
    select_sink fs workspace (some "-") = .ok .StdOut ∧
    select_sink fs workspace (some "-/") = .ok .StdOut ∧
    select_sink fs "-" none = .ok .StdOut ∧
    (pathEq (workspace ++ "/") "-" = false →
      select_sink fs workspace none = .ok (.Directory (workspace ++ "/"))) ∧
    (∀ tok, pathEq tok "-" = false →
      (fs.is_dir tok = true ∨ endsWithChar tok MAIN_SEPARATOR = true) →
      select_sink fs workspace (some tok) = .ok (.Directory tok)) ∧
    (∀ tok, pathEq tok "-" = false → fs.is_dir tok = false →
      endsWithChar tok MAIN_SEPARATOR = false → fs.open_ok tok = true →
      select_sink fs workspace (some tok) = .ok (.File tok)) := by
  refine ⟨rfl, rfl, rfl, ?_, ?_, ?_⟩
  · intro hpe
    have hend := endsWithChar_append_slash workspace
    simp [select_sink, list_output_token, tryFromPathBuf, hpe, hend]
  · intro tok hpe hdir
    rcases hdir with hdir | hdir <;>
      simp [select_sink, list_output_token, tryFromPathBuf, hpe, hdir]
  · intro tok hpe hdir hend hopen
    simp [select_sink, list_output_token, tryFromPathBuf, hpe, hdir, hend, hopen]

/-- Witness for C2's amended theorem at concrete inputs: `-` streams, an
absent destination selects the directory `ws/`, a plain file token opens
a single file. -/
theorem sink_selection_rule_witness :
    select_sink c2fs "ws" (some "-") = .ok .StdOut ∧
    select_sink c2fs "ws" none = .ok (.Directory ("ws" ++ "/")) ∧
    select_sink c2fs "ws" (some "out.json") = .ok (.File "out.json") :=
  ⟨(sink_selection_rule c2fs "ws").1,
   (sink_selection_rule c2fs "ws").2.2.2.1 (by decide),
   (sink_selection_rule c2fs "ws").2.2.2.2.2 "out.json" (by decide) rfl (by decide) rfl⟩

/-! ### C5 — write returns serialized length plus one -/

/-- C5: for every sink variant, every I/O environment and every
name/text, a successful `write` returns exactly the serialized text's
length plus one — the trailing newline. -/
theorem write_returns_len_plus_one
    (w : FileOrDirectoryWriter) (env : IoEnv) (name text : String) (r : Nat)
    (h : w.write env name text = .ok r) : r = text.length + 1 := by
  cases w <;>
    · rw [FileOrDirectoryWriter.write] at h
      repeat' split at h
      all_goals simp_all [String.length_append, show "\n".length = 1 from rfl]

/-- The all-successful I/O environment used by the C5 witness. -/
def c5env : IoEnv :=
  { stdout_write_ok := true, file_write_ok := true, dir_exists := false,
    create_dir_ok := true, fs_write_ok := true }

/-- Witness for C5 at the concrete input of the repository's own
`ford_tests::dash` test: writing `"test output"` returns 12. -/
theorem write_returns_len_plus_one_witness : (12 : Nat) = "test output".length + 1 :=
  write_returns_len_plus_one .StdOut c5env "stdout-test" "test output" 12 rfl

/-! ### C6 — alias records in the download path -/

/-- An alias record: `is_alias` set, an `alias_for` target, and a URL. -/
def c6alias : Emoji :=
  { Emoji.new "thumbs" with
    is_alias := 1
    alias_for := "thumbsup"
    url := "https://cdn.example.com/real.png" }

/-- Loop environment for the alias pair: file absent, fetch succeeds. -/
def c6env : StepEnv :=
  { already_file := false, fetch_ok := true, body := [1, 2], write_ok := true,
    still_file_after_write_error := false }

/-- C6 counterexample: a record with `is_alias = 1` still yields a
URL/destination pair (built from its `url` field, main.rs lines 347-354),
and the download loop issues an HTTP request and writes the asset for it
— the download step is neither a no-op nor a skip. -/
theorem alias_not_skipped_cex :
    c6alias.is_alias = 1 ∧
    url_path_pairs "dir" [c6alias] =
      [("https://cdn.example.com/real.png", { base := "dir", file := "thumbs.png" })] ∧
    (download_all false
        [(("https://cdn.example.com/real.png", "dir/thumbs.png"), c6env)] 0).1.countP
      DlEvent.isRequest = 1 ∧
    (download_all false
        [(("https://cdn.example.com/real.png", "dir/thumbs.png"), c6env)] 0).1 ≠
      [DlEvent.Skip "dir/thumbs.png"] := by
  refine ⟨rfl, by decide, by decide, by decide⟩

/-- C6 (amended): pair construction never consults the alias fields —
records with any `is_alias` or `alias_for` value produce exactly the pair
a non-alias record with the same `name` and `url` produces, and are then
downloaded like any other pair (subject only to the file-exists/force
check). -/
theorem alias_records_not_special (base_path : String) (e : Emoji) (a : Nat) (s : String) :
    url_path_pairs base_path [{ e with is_alias := a }] = url_path_pairs base_path [e] ∧
    url_path_pairs base_path [{ e with alias_for := s }] = url_path_pairs base_path [e] :=
  ⟨rfl, rfl⟩

/-- Helper: when `force` is false and every pair's destination already
exists, the loop is nothing but `Skip` events and the rate-limit deadline
never moves. -/
theorem download_all_skip_run (pairs : List ((String × String) × StepEnv)) (last_dl : Nat)
    (h : ∀ pe ∈ pairs, pe.2.already_file = true) :
    download_all false pairs last_dl = (pairs.map (fun pe => DlEvent.Skip pe.1.2), last_dl) := by
  induction pairs generalizing last_dl with
  | nil => rfl
  | cons pe rest ih =>
      obtain ⟨⟨url, path⟩, env⟩ := pe
      have henv : env.already_file = true := h (((url, path), env)) (by simp)
      have hrest := ih last_dl (fun x hx => h x (by simp [hx]))
      simp [download_all, downloadStep, henv, hrest]

/-! ### C3 — rate-limit deadline discipline -/

/-- A pair environment whose fetch fails. -/
def c3failEnv : StepEnv :=
  { already_file := false, fetch_ok := false, body := [], write_ok := true,
    still_file_after_write_error := false }

/-- A pair environment whose fetch succeeds. -/
def c3okEnv : StepEnv :=
  { already_file := false, fetch_ok := true, body := [7], write_ok := true,
    still_file_after_write_error := false }

/-- A pair environment whose destination file already exists. -/
def c3skipEnv : StepEnv :=
  { already_file := true, fetch_ok := true, body := [], write_ok := true,
    still_file_after_write_error := false }

/-- Two pairs: the first issues a request that fails, the second issues a
request that succeeds. -/
def c3pairs : List ((String × String) × StepEnv) :=
  [(("https://e/a.png", "d/a.png"), c3failEnv),
   (("https://e/b.png", "d/b.png"), c3okEnv)]

/-- C3 counterexample: the first pair's HTTP request fails, and — because
the source `continue`s past the pacing code (main.rs line 382) — NO sleep
separates its request from the next one and the deadline is not advanced
for it: two requests are issued but only one `Sleep` occurs, contradicting
"regardless of that request's outcome ... sleeps ... and then advances
the deadline". -/
theorem rate_limit_not_regardless_cex :
    download_all false c3pairs 1000 =
      ([.Request "https://e/a.png", .ReportFetchFailure "d/a.png",
        .Request "https://e/b.png", .WriteFile "d/b.png" [7],
        .Sleep (1000 + min_dif)], 1000 + min_dif) ∧
    (download_all false c3pairs 1000).1.countP DlEvent.isRequest = 2 ∧
    (download_all false c3pairs 1000).1.countP DlEvent.isSleep = 1 := by
  refine ⟨by decide, by decide, by decide⟩

/-- C3 (amended): the deadline-accumulation discipline applies exactly to
the pairs whose HTTP fetch SUCCEEDS: such an iteration starts with its
request, ends by sleeping until `last_dl + min_dif`, and advances the
deadline by exactly `min_dif`; an iteration whose fetch fails issues its
request, reports, and leaves the deadline untouched with no sleep; and a
run that only skips performs no sleeps and never moves the deadline. -/
theorem rate_limit_deadline_discipline :
    (∀ (force : Bool) (url path : String) (env : StepEnv) (last_dl : Nat),
      (force = true ∨ env.already_file = false) → env.fetch_ok = true →
      (downloadStep force url path env last_dl).2 = last_dl + min_dif ∧
      (downloadStep force url path env last_dl).1.getLast? =
        some (.Sleep (last_dl + min_dif)) ∧
      (downloadStep force url path env last_dl).1.head? = some (.Request url)) ∧
    (∀ (force : Bool) (url path : String) (env : StepEnv) (last_dl : Nat),
      (force = true ∨ env.already_file = false) → env.fetch_ok = false →
      downloadStep force url path env last_dl =
        ([.Request url, .ReportFetchFailure path], last_dl)) ∧
    (∀ (pairs : List ((String × String) × StepEnv)) (last_dl : Nat),
      (∀ pe ∈ pairs, pe.2.already_file = true) →
      (download_all false pairs last_dl).1.countP DlEvent.isSleep = 0 ∧
      (download_all false pairs last_dl).2 = last_dl) := by
  refine ⟨?_, ?_, ?_⟩
  · intro force url path env last_dl hrun hfetch
    have hskip : (!force && env.already_file) = false := by
      rcases hrun with h | h <;> simp [h]
    cases hw : env.write_ok <;> cases hs : env.still_file_after_write_error <;>
      simp [downloadStep, hskip, hfetch, hw, hs]
  · intro force url path env last_dl hrun hfetch
    have hskip : (!force && env.already_file) = false := by
      rcases hrun with h | h <;> simp [h]
    simp [downloadStep, hskip, hfetch]
  · intro pairs last_dl h
    rw [download_all_skip_run pairs last_dl h]
    refine ⟨?_, rfl⟩
    rw [List.countP_eq_zero]
    intro ev hev
    obtain ⟨pe, _, rfl⟩ := List.mem_map.mp hev
    simp [DlEvent.isSleep]

/-- Witness for C3's amended theorem at concrete inputs: a successful
fetch advances the deadline by `min_dif`, a failed fetch leaves it and
sleeps nowhere, a skip-only run sleeps nowhere. -/
theorem rate_limit_deadline_discipline_witness :
    (downloadStep false "https://u" "p" c3okEnv 0).2 = 0 + min_dif ∧
    downloadStep false "https://u" "p" c3failEnv 0 =
      ([.Request "https://u", .ReportFetchFailure "p"], 0) ∧
    (download_all false [(("https://u", "p"), c3skipEnv)] 7).1.countP DlEvent.isSleep = 0 :=
  ⟨(rate_limit_deadline_discipline.1 false "https://u" "p" c3okEnv 0 (Or.inr rfl) rfl).1,
   rate_limit_deadline_discipline.2.1 false "https://u" "p" c3failEnv 0 (Or.inr rfl) rfl,
   (rate_limit_deadline_discipline.2.2 [(("https://u", "p"), c3skipEnv)] 7
     (by decide)).1⟩

/-! ### C7 — per-item failure isolation of the asset fetch -/

/-- C7: an iteration whose asset fetch fails (network, timeout and non-2xx
all surface as the same failed `Result`) performs exactly one request and
one failure report — it never writes or removes the destination path (so
the path is left absent, or unmodified if it pre-existed), and the loop
continues with the remaining pairs exactly as if the failed pair had
contributed only those two events; the pair is processed once, so the
download is never retried. -/
theorem fetch_failure_isolated
    (force : Bool) (before after : List ((String × String) × StepEnv))
    (url path : String) (env : StepEnv) (last_dl : Nat)
    (hrun : force = true ∨ env.already_file = false)
    (hfail : env.fetch_ok = false) :
    downloadStep force url path env last_dl =
      ([.Request url, .ReportFetchFailure path], last_dl) ∧
    download_all force (before ++ ((url, path), env) :: after) last_dl =
      ((download_all force before last_dl).1 ++
        ([.Request url, .ReportFetchFailure path] ++
          (download_all force after (download_all force before last_dl).2).1),
       (download_all force after (download_all force before last_dl).2).2) := by
  have hskip : (!force && env.already_file) = false := by
    rcases hrun with h | h <;> simp [h]
  have hstep : ∀ t, downloadStep force url path env t =
      ([.Request url, .ReportFetchFailure path], t) := by
    intro t; simp [downloadStep, hskip, hfail]
  refine ⟨hstep last_dl, ?_⟩
  induction before generalizing last_dl with
  | nil => simp [download_all, hstep]
  | cons pe rest ih =>
      obtain ⟨⟨u, p⟩, en⟩ := pe
      simp [download_all, ih]

/-- C7 failure environment: destination absent, fetch fails. -/
def c7failEnv : StepEnv :=
  { already_file := false, fetch_ok := false, body := [], write_ok := true,
    still_file_after_write_error := false }

/-- Witness for C7 at a concrete input: the failing iteration is exactly
one request plus one report, leaving the deadline alone. -/
theorem fetch_failure_isolated_witness :
    downloadStep false "https://u/x.png" "dest/x.png" c7failEnv 3 =
      ([.Request "https://u/x.png", .ReportFetchFailure "dest/x.png"], 3) :=
  (fetch_failure_isolated false [] [] "https://u/x.png" "dest/x.png" c7failEnv 3
    (Or.inr rfl) rfl).1

/-! ### C9 — idempotent re-runs with force=false -/

/-- C9: when `force` is false, every pair whose destination path already
exists as a regular file is skipped before any network activity, and a
run in which every destination exists issues zero HTTP requests. -/
theorem force_false_skips_existing :
    (∀ (url path : String) (env : StepEnv) (last_dl : Nat), env.already_file = true →
      downloadStep false url path env last_dl = ([.Skip path], last_dl)) ∧
    (∀ (pairs : List ((String × String) × StepEnv)) (last_dl : Nat),
      (∀ pe ∈ pairs, pe.2.already_file = true) →
      (download_all false pairs last_dl).1 =
        pairs.map (fun pe => DlEvent.Skip pe.1.2) ∧
      (download_all false pairs last_dl).1.countP DlEvent.isRequest = 0) := by
  constructor
  · intro url path env last_dl h
    simp [downloadStep, h]
  · intro pairs last_dl h
    rw [download_all_skip_run pairs last_dl h]
    refine ⟨rfl, ?_⟩
    rw [List.countP_eq_zero]
    intro ev hev
    obtain ⟨pe, _, rfl⟩ := List.mem_map.mp hev
    simp [DlEvent.isRequest]

/-- Existing-file environment for the C9 witness. -/
def c9skipEnv : StepEnv :=
  { already_file := true, fetch_ok := true, body := [], write_ok := true,
    still_file_after_write_error := false }

/-- Witness for C9 at a concrete two-pair run where both destinations
exist: the trace is two skips and contains zero requests. -/
theorem force_false_skips_existing_witness :
    (download_all false
        [(("https://u/a.png", "d/a.png"), c9skipEnv),
         (("https://u/b.png", "d/b.png"), c9skipEnv)] 0).1 =
      [DlEvent.Skip "d/a.png", DlEvent.Skip "d/b.png"] ∧
    (download_all false
        [(("https://u/a.png", "d/a.png"), c9skipEnv),
         (("https://u/b.png", "d/b.png"), c9skipEnv)] 0).1.countP DlEvent.isRequest = 0 :=
  force_false_skips_existing.2
    [(("https://u/a.png", "d/a.png"), c9skipEnv),
     (("https://u/b.png", "d/b.png"), c9skipEnv)] 0 (by decide)

/-! ### C4 — file-extension derivation for destination paths -/

/-- `rsplit_once` finds nothing when the character is absent. -/
theorem rsplitOnceList_eq_none (c : Char) (l : List Char) (h : c ∉ l) :
    rsplitOnceList c l = none := by
  induction l with
  | nil => rfl
  | cons x xs ih =>
      have hx : ¬x = c := fun he => h (he ▸ List.mem_cons_self x xs)
      have hxs : c ∉ xs := fun hm => h (List.mem_cons_of_mem _ hm)
      simp [rsplitOnceList, ih hxs, hx]

/-- `rsplit_once` splits at the LAST occurrence. -/
theorem rsplitOnceList_last (c : Char) (l1 l2 : List Char) (h : c ∉ l2) :
    rsplitOnceList c (l1 ++ c :: l2) = some (l1, l2) := by
  induction l1 with
  | nil => simp [rsplitOnceList, rsplitOnceList_eq_none c l2 h]
  | cons x xs ih => simp [rsplitOnceList, ih]

/-- A record whose URL's trailing path segment has no extension, while
the URL's host part contains dots. -/
def c4emoji : Emoji :=
  { Emoji.new "smile" with url := "https://cdn.example.com/emoji" }

/-- C4 counterexample: for the URL `https://cdn.example.com/emoji`, whose
trailing path segment `emoji` has no extension, the claim requires the
default `png`; the code instead takes everything after the LAST dot of
the whole URL — `com/emoji` — because `rsplit_once('.')` (main.rs line
350) searches the entire string, not the trailing segment. -/
theorem url_extension_cex :
    urlSuffix "https://cdn.example.com/emoji" = "com/emoji" ∧
    specUrlExtension "https://cdn.example.com/emoji" = "png" ∧
    urlSuffix "https://cdn.example.com/emoji" ≠
      specUrlExtension "https://cdn.example.com/emoji" ∧
    url_path_pairs "base" [c4emoji] =
      [("https://cdn.example.com/emoji",
        { base := "base", file := "smile.com/emoji" })] := by
  refine ⟨by decide, by decide, by decide, by decide⟩

/-- C4 (amended): the destination is the base directory joined with the
record's `name` and an extension derived from the WHOLE URL string: the
substring after the URL's last `.` wherever it occurs (it may span path
segments), with `png` exactly when the URL contains no `.` at all; the
pair is a pure function of the base path and the record, so response
headers are never consulted. -/
theorem url_extension_from_whole_url :
    (∀ url : String, '.' ∉ url.data → urlSuffix url = "png") ∧
    (∀ pre suf : String, '.' ∉ suf.data → urlSuffix (pre ++ "." ++ suf) = suf) ∧
    (∀ (base_path : String) (e : Emoji),
      url_path_pairs base_path [e] =
        [(e.url, { base := base_path, file := withExtension e.name (urlSuffix e.url) })]) := by
  refine ⟨?_, ?_, fun base_path e => rfl⟩
  · intro url h
    simp [urlSuffix, rsplitOnce, rsplitOnceList_eq_none '.' url.data h]
  · intro pre suf h
    have hd : (pre ++ "." ++ suf).data = pre.data ++ '.' :: suf.data := by
      show (pre.data ++ ['.']) ++ suf.data = pre.data ++ '.' :: suf.data
      simp
    rw [urlSuffix, rsplitOnce, hd, rsplitOnceList_last '.' pre.data suf.data h]

/-- Witness for C4's amended theorem at concrete inputs. -/
theorem url_extension_from_whole_url_witness :
    urlSuffix ("https://a/b" ++ "." ++ "png") = "png" ∧
    urlSuffix "nodots" = "png" :=
  ⟨url_extension_from_whole_url.2.1 "https://a/b" "png" (by decide),
   url_extension_from_whole_url.1 "nodots" (by decide)⟩

/-! ### C8 — serialization round-trip -/

/-- The key order is irreflexive. -/
theorem keyLt_irrefl : ∀ l : List Char, keyLt l l = false
  | [] => rfl
  | a :: as => by simp [keyLt, lt_self_iff_false, keyLt_irrefl as]

/-- The key order is asymmetric. -/
theorem keyLt_asymm : ∀ l1 l2 : List Char, keyLt l1 l2 = true → keyLt l2 l1 = false
  | [], [], h => by simp [keyLt] at h
  | [], _ :: _, _ => rfl
  | _ :: _, [], h => by simp [keyLt] at h
  | a :: as, b :: bs, h => by
      by_cases hab : a < b
      · have hba : ¬b < a := asymm hab
        simp [keyLt, hab, hba]
      · by_cases hba : b < a
        · rw [keyLt] at h
          simp [hab, hba] at h
        · rw [keyLt] at h
          simp [hab, hba] at h
          simp [keyLt, hab, hba, keyLt_asymm as bs h]

/-- String asymmetry for the `BTreeMap` order. -/
theorem strLt_asymm (a b : String) (h : strLt a b = true) : strLt b a = false :=
  keyLt_asymm a.data b.data h

/-- Strictly smaller keys are distinct. -/
theorem strLt_ne (a b : String) (h : strLt a b = true) : a ≠ b := by
  intro he
  subst he
  rw [strLt, keyLt_irrefl] at h
  exact Bool.noConfusion h

/-- Inserting a key strictly greater than every present key appends. -/
theorem btreeInsert_append (k : String) (v : Json) :
    ∀ r : List (String × Json), (∀ kv ∈ r, strLt kv.1 k = true) →
      btreeInsert k v r = r ++ [(k, v)]
  | [], _ => rfl
  | (k', v') :: rest, h => by
      have hk' : strLt k' k = true := h (k', v') (by simp)
      have h1 : strLt k k' = false := strLt_asymm k' k hk'
      have h2 : ¬k = k' := fun he => strLt_ne k' k hk' he.symm
      simp [btreeInsert, h1, h2,
        btreeInsert_append k v rest (fun kv hkv => h kv (by simp [hkv]))]

/-- The visitor state after the `name` and `is_alias` entries. -/
def accTwo (n : String) (ia : Nat) : EmojiFieldsAcc :=
  { name := some n, is_alias := some ia, alias_for := none, url := none,
    created := none, user_display_name := none, avatar_hash := none, rest := [] }

/-- The visitor state after the first five entries. -/
def accFive (n : String) (ia : Nat) (af u : String) (c : Nat) : EmojiFieldsAcc :=
  { name := some n, is_alias := some ia, alias_for := some af, url := some u,
    created := some c, user_display_name := none, avatar_hash := none, rest := [] }

/-- The visitor state after all seven modelled entries. -/
def accSeven (n : String) (ia : Nat) (af u : String) (c : Nat) (udn ah : String) :
    EmojiFieldsAcc :=
  { name := some n, is_alias := some ia, alias_for := some af, url := some u,
    created := some c, user_display_name := some udn, avatar_hash := some ah, rest := [] }

/-- A key outside the seven modelled names falls through to the
`BTreeMap` insert. -/
theorem consumeEmojiField_unknown (acc : EmojiFieldsAcc) (k : String) (v : Json)
    (h : k ∉ knownEmojiFields) :
    consumeEmojiField acc k v = .ok { acc with rest := btreeInsert k v acc.rest } := by
  simp only [knownEmojiFields, List.mem_cons, List.not_mem_nil, or_false, not_or] at h
  obtain ⟨h1, h2, h3, h4, h5, h6, h7⟩ := h
  unfold consumeEmojiField
  rw [if_neg h1, if_neg h2, if_neg h3, if_neg h4, if_neg h5, if_neg h6, if_neg h7]

/-- Walking the seven modelled entries produced by `serializeEmoji` (the
two numeric range checks discharged by the `u8`/`u128` bounds) fills
every named field and leaves the collected map empty. -/
theorem parseEmojiFields_known (n af u udn ah : String) (ia c : Nat)
    (unk : List (String × Json)) (hia : ia < 256) (hc : c < 2 ^ 128) :
    parseEmojiFields {}
      (("name", Json.str n) :: ("is_alias", Json.num ia) :: ("alias_for", Json.str af) ::
        ("url", Json.str u) :: ("created", Json.num c) ::
        ("user_display_name", Json.str udn) :: ("avatar_hash", Json.str ah) :: unk) =
      parseEmojiFields (accSeven n ia af u c udn ah) unk := by
  show (match (if ia < 256 then Except.ok (accTwo n ia)
          else Except.error "out of range for u8" : Except String EmojiFieldsAcc) with
      | Except.error msg => Except.error msg
      | Except.ok acc' =>
          parseEmojiFields acc'
            (("alias_for", Json.str af) :: ("url", Json.str u) :: ("created", Json.num c) ::
              ("user_display_name", Json.str udn) :: ("avatar_hash", Json.str ah) :: unk)) = _
  rw [if_pos hia]
  show (match (if c < 2 ^ 128 then Except.ok (accFive n ia af u c)
          else Except.error "out of range for u128" : Except String EmojiFieldsAcc) with
      | Except.error msg => Except.error msg
      | Except.ok acc' =>
          parseEmojiFields acc'
            (("user_display_name", Json.str udn) :: ("avatar_hash", Json.str ah) :: unk)) = _
  rw [if_pos hc]
  rfl

/-- Walking a strictly-ascending run of unknown keys, each greater than
everything already collected, simply appends them to the collected map. -/
theorem parseEmojiFields_unknown :
    ∀ (l : List (String × Json)) (acc : EmojiFieldsAcc),
      (∀ k ∈ l.map Prod.fst, k ∉ knownEmojiFields) →
      (∀ kv ∈ acc.rest, ∀ k' ∈ l.map Prod.fst, strLt kv.1 k' = true) →
      List.Pairwise (fun a b => strLt a b = true) (l.map Prod.fst) →
      parseEmojiFields acc l = .ok { acc with rest := acc.rest ++ l }
  | [], acc, _, _, _ => by simp [parseEmojiFields]
  | (k, v) :: rest, acc, hknown, hacc, hsort => by
      have hk : k ∉ knownEmojiFields := hknown k (by simp)
      have hins : btreeInsert k v acc.rest = acc.rest ++ [(k, v)] :=
        btreeInsert_append k v acc.rest (fun kv hkv => hacc kv hkv k (by simp))
      rw [List.map_cons, List.pairwise_cons] at hsort
      have hrec := parseEmojiFields_unknown rest
        { acc with rest := acc.rest ++ [(k, v)] }
        (fun k' hk' => hknown k' (by simp [hk']))
        (by
          intro kv hkv k' hk'
          rcases List.mem_append.mp hkv with hkv | hkv
          · exact hacc kv hkv k' (by simp [hk'])
          · simp at hkv
            rw [hkv]
            exact hsort.1 k' hk')
        hsort.2
      rw [parseEmojiFields, consumeEmojiField_unknown acc k v hk, hins]
      show parseEmojiFields { acc with rest := acc.rest ++ [(k, v)] } rest =
        Except.ok { acc with rest := acc.rest ++ (k, v) :: rest }
      rw [hrec]
      simp

/-- C8: serializing any well-formed emoji record (its `BTreeMap` of
unknown fields carries strictly ascending keys, none of them a modelled
field name, and its numeric fields fit their Rust integer types —
invariants every record the program constructs satisfies) and re-parsing
the result through the persisted directory format yields the record back:
all modelled fields equal, unknown fields preserved byte-for-byte. -/
theorem emoji_roundtrip (e : Emoji) (h : wellFormedEmoji e) :
    parseEmoji (serializeEmoji e) = .ok e := by
  obtain ⟨hia, hc, hunk, hsort⟩ := h
  obtain ⟨n, ia, af, u, c, udn, ah, unk⟩ := e
  have h7 := parseEmojiFields_known n af u udn ah ia c unk hia hc
  have hu := parseEmojiFields_unknown unk (accSeven n ia af u c udn ah) hunk
    (by simp [accSeven]) hsort
  show (match parseEmojiFields {}
      (("name", Json.str n) :: ("is_alias", Json.num ia) :: ("alias_for", Json.str af) ::
        ("url", Json.str u) :: ("created", Json.num c) ::
        ("user_display_name", Json.str udn) :: ("avatar_hash", Json.str ah) :: unk) with
      | Except.error msg => Except.error msg
      | Except.ok acc => finishEmoji acc) = Except.ok ⟨n, ia, af, u, c, udn, ah, unk⟩
  rw [h7, hu]
  rfl

/-- A concrete record with two unknown fields, used as the C8 witness. -/
def c8emoji : Emoji :=
  { Emoji.new "party" with
    unknown_fields := [("synonyms", Json.arr [Json.str "celebrate"]),
                       ("team_id", Json.str "T123")] }

/-- Witness for C8 at a concrete record carrying unknown fields. -/
theorem emoji_roundtrip_witness : parseEmoji (serializeEmoji c8emoji) = .ok c8emoji :=
  emoji_roundtrip c8emoji (by decide)


/-! ### C10 — directory reload -/

/-- One entry contributes exactly its diagnostic (if any) and its yielded
record (if any). -/
theorem reloadStep_eq (ent : DirEntry) :
    reloadStep ent = ((reloadDiag ent).toList, (reloadSpecYield ent).toList) := by
  unfold reloadStep reloadDiag reloadSpecYield eligibleEntry
  cases hok : ent.entry_ok <;> cases hf : ent.is_file <;>
    by_cases hext : pathExtension ent.path = some "json" <;>
      rcases hc : ent.content with _ | (_ | j) <;>
        simp [hok, hf, hext, hc]
  all_goals cases hp : parseEmoji j <;> simp [hp, Except.toOption]

/-- C10 (amended): directory reload yields exactly the records of the
`Ok` directory entries that are regular files with extension `json`,
could be read, and parse successfully — in directory order; subdirectory
entries contribute nothing (no recursion); a diagnostic is printed
exactly for the eligible files whose bytes fail JSON/record parsing,
while non-`.json` or unreadable entries are skipped silently; and the
operation is total, so no per-file failure fails the reload. -/
theorem reload_yields_parsed_json_files (entries : List DirEntry) :
    (emoji_iter entries).2 = entries.filterMap reloadSpecYield ∧
    (emoji_iter entries).1 = entries.filterMap reloadDiag := by
  induction entries with
  | nil => exact ⟨rfl, rfl⟩
  | cons ent rest ih =>
      rw [List.filterMap_cons, List.filterMap_cons]
      cases hy : reloadSpecYield ent <;> cases hd : reloadDiag ent <;>
        simp [emoji_iter, reloadStep_eq, hy, hd, ih.1, ih.2]

/-- A regular file that is not a `.json` file, whose content would even
parse as a record. -/
def c10txtEntry : DirEntry :=
  { path := "emojis/readme.txt", entry_ok := true, is_file := true,
    content := some (some (serializeEmoji (Emoji.new "hidden"))) }

/-- A regular `.json` file whose `fs::read` fails. -/
def c10unreadable : DirEntry :=
  { path := "emojis/broken.json", entry_ok := true, is_file := true, content := none }

/-- C10 counterexample: a regular non-`.json` file and an unreadable
`.json` file are both skipped WITHOUT any diagnostic — the reload of a
directory holding only them yields no records and an empty diagnostic
list, contradicting "every file that fails to parse or is not a regular
`.json` file is skipped with a diagnostic" (only `serde_json` parse
failures print one, main.rs line 339). -/
theorem reload_silent_skip_cex :
    c10txtEntry.is_file = true ∧
    pathExtension c10txtEntry.path ≠ some "json" ∧
    emoji_iter [c10txtEntry, c10unreadable] = ([], []) := by
  refine ⟨rfl, by decide, by rfl⟩

end SlackEmoji
